import Mathlib

/-
Verification development for the JetStream acknowledged-publish layer of
nats.py (file `nats/jetstream/publish.py`).

The embedding is shallow: the Python method `Publisher.publish` is rendered
as a pure Lean function over an oracle describing the transport's behaviour.
External collaborators (the transport client `nats.aio.client.Client`, the
JSON decoder `parse_json_response`) are abstracted exactly at the interface
the source consumes: each call to `self.client.request(...)` either raises a
no-responders error, raises some other transport error, or yields a reply
whose body decodes into a `PubAck`-shaped value.  The oracle is indexed by
the ordinal of the call within one `publish` invocation, so an environment
may answer successive round trips differently.

Observable behaviour is captured as a trace of events: one `request` event
per transport round trip (carrying the exact request the source passes to
`client.request`: subject, payload, timeout, headers) and one `sleep` event
per `asyncio.sleep(retry_wait)`.
-/

set_option autoImplicit false

namespace NatsJS

/-- Header keys.  The four reserved expectation keys come from the external
`nats.jetstream.api.Header` enum (their wire strings are an external protocol
contract); `user` covers every other header key a caller may supply.  A
caller-supplied dict may also use a reserved key, which is how collisions
with expectation headers arise. -/
inductive HKey where
  | expectedLastMsgId
  | expectedStream
  | expectedLastSeq
  | expectedLastSubjectSequence
  | user (s : String)
  deriving DecidableEq, Repr

/-- A Python `dict[str, str]` of headers, as an insertion-ordered association
list.  A genuine Python dict has no duplicate keys; lemmas that need that
invariant take a `Nodup` hypothesis on `keys`. -/
abbrev Dict := List (HKey × String)

/-- The keys of a dict, in order. -/
def keys (d : Dict) : List HKey := d.map (fun p => p.1)

/-- Python `d[k]` as a total lookup: the value at the first occurrence of
`k`, if any. -/
def dictGet : Dict → HKey → Option String
  | [], _ => none
  | (k', v) :: d, k => if k = k' then some v else dictGet d k

/-- Python `d[k] = v`: replace the value at the existing key in place,
otherwise append the new pair at the end. -/
def dictSet : Dict → HKey → String → Dict
  | [], k, v => [(k, v)]
  | (k', v') :: d, k, v => if k = k' then (k, v) :: d else (k', v') :: dictSet d k v

/-- Python `d.update(other)`: set every pair of `other` into `d`, in order. -/
def dictUpdate (d other : Dict) : Dict :=
  other.foldl (fun acc p => dictSet acc p.1 p.2) d

/-- Lookup through an optional dict (`None` has no entries). -/
def optGet : Option Dict → HKey → Option String
  | none, _ => none
  | some d, k => dictGet d k

/-- `PubAck` (from `publish.py`): the ack received after successfully
publishing a message.  `stream` is declared `str` in the dataclass but the
source compares it against `None` after JSON decoding, so the decoded field
is modelled as optional. -/
structure PubAck where
  stream : Option String
  sequence : Nat
  duplicate : Bool
  domain : Option String
  deriving DecidableEq, Repr

/-- Outcome of one `client.request` round trip together with the decode of
its reply body: the call raises `NoRespondersError`, raises some other
transport error (timeout, precondition rejection, connection failure, ...,
identified by name), or returns a reply whose body decodes to `ack`. -/
inductive AttemptOutcome where
  | noResponders
  | fail (e : String)
  | reply (ack : PubAck)
  deriving DecidableEq, Repr

/-- The errors `publish` itself can raise. -/
inductive PubErr where
  | invalidAck
  | noStreamResponse
  | transport (e : String)
  deriving DecidableEq, Repr

/-- Result of a `publish` call: the returned ack or the raised error. -/
inductive PublishResult where
  | ok (ack : PubAck)
  | err (e : PubErr)
  deriving DecidableEq, Repr

/-- The argument record passed to `client.request` at `publish.py` lines
93-98: subject, payload, timeout, headers — and nothing else. -/
structure Request where
  subject : String
  payload : List Nat
  timeout : Rat
  headers : Option Dict
  deriving DecidableEq, Repr

/-- Observable events of one `publish` call: a transport round trip, or an
`asyncio.sleep` of the given duration. -/
inductive Ev where
  | request (req : Request)
  | sleep (d : Rat)
  deriving DecidableEq, Repr

/-- Number of transport round trips in a trace. -/
def countRequests : List Ev → Nat
  | [] => 0
  | Ev.request _ :: tr => countRequests tr + 1
  | Ev.sleep _ :: tr => countRequests tr

/-- The transport handle: the behaviour of `client.request`, indexed by the
ordinal of the call within one `publish` invocation. -/
structure Client where
  request : Nat → Request → AttemptOutcome

/-- `Publisher.__init__`: holds the transport handle and a default
timeout. -/
structure Publisher where
  client : Client
  timeout : Rat

/-- Lines 71-83 of `publish.py`: build `extra_headers` from the four
optional expectation parameters, in source order.  `str()` of a `str` is the
string itself; `str()` of an `int` is its decimal representation. -/
def buildExtra (expected_last_msg_id expected_stream : Option String)
    (expected_last_sequence expected_last_subject_sequence : Option Int) : Dict :=
  let eh : Dict := []
  let eh := match expected_last_msg_id with
    | some v => dictSet eh HKey.expectedLastMsgId v
    | none => eh
  let eh := match expected_stream with
    | some v => dictSet eh HKey.expectedStream v
    | none => eh
  let eh := match expected_last_sequence with
    | some v => dictSet eh HKey.expectedLastSeq (toString v)
    | none => eh
  let eh := match expected_last_subject_sequence with
    | some v => dictSet eh HKey.expectedLastSubjectSequence (toString v)
    | none => eh
  eh

/-- Lines 85-89 of `publish.py`: if any expectation header was set, merge the
caller-supplied headers on top of `extra_headers` (`extra_headers.update(headers)`)
and use the result; otherwise use the caller-supplied headers unchanged. -/
def buildHeaders (headers : Option Dict)
    (expected_last_msg_id expected_stream : Option String)
    (expected_last_sequence expected_last_subject_sequence : Option Int) : Option Dict :=
  let extra := buildExtra expected_last_msg_id expected_stream
    expected_last_sequence expected_last_subject_sequence
  if 0 < extra.length then
    some (match headers with
      | some h => dictUpdate extra h
      | none => extra)
  else headers

/-- The request value `publish` passes to `client.request` on every attempt:
subject and payload as given, the timeout defaulted from the publisher
(lines 68-69), and the headers built by lines 71-89. -/
def publishRequest (p : Publisher) (subject : String) (payload : List Nat)
    (timeout : Option Rat) (headers : Option Dict)
    (expected_last_msg_id expected_stream : Option String)
    (expected_last_sequence expected_last_subject_sequence : Option Int) : Request :=
  { subject := subject
    payload := payload
    timeout := match timeout with
      | none => p.timeout
      | some t => t
    headers := buildHeaders headers expected_last_msg_id expected_stream
      expected_last_sequence expected_last_subject_sequence }

/-- Lines 91-109 of `publish.py`: `for attempt in range(0, retry_attempts)`.
`remaining` is the number of iterations still to run (`retry_attempts -
attempt`); the source's guard `attempt < retry_attempts - 1` before the
sleep is exactly `remaining ≠ 1` here, i.e. `r ≠ 0` after matching
`remaining = r + 1`.  On a reply the body is decoded and a decoded `stream`
of `None` raises `InvalidAckError` (uncaught by the `except NoRespondersError`
handler, hence propagated); any transport error other than no-responders
likewise propagates.  When the loop exhausts, `NoStreamResponseError` is
raised. -/
def attemptLoop (c : Client) (req : Request) (retry_wait : Rat) :
    Nat → Nat → List Ev × PublishResult
  | 0, _ => ([], PublishResult.err PubErr.noStreamResponse)
  | r + 1, attempt =>
    match c.request attempt req with
    | AttemptOutcome.reply ack =>
        ([Ev.request req],
          if ack.stream = none then PublishResult.err PubErr.invalidAck
          else PublishResult.ok ack)
    | AttemptOutcome.fail e => ([Ev.request req], PublishResult.err (PubErr.transport e))
    | AttemptOutcome.noResponders =>
        if r = 0 then
          ([Ev.request req], PublishResult.err PubErr.noStreamResponse)
        else
          (Ev.request req :: Ev.sleep retry_wait ::
             (attemptLoop c req retry_wait r (attempt + 1)).1,
           (attemptLoop c req retry_wait r (attempt + 1)).2)

/-- `Publisher.publish`.  Parameters mirror the Python signature, in order
(`id` included; the source body never uses it).  `retry_attempts` is a
Python `int`; `range(0, retry_attempts)` runs `retry_attempts.toNat`
iterations (zero when the bound is zero or negative).  Returns the trace of
observable events and the result. -/
def publish (p : Publisher) (subject : String) (payload : List Nat)
    (id : Option String) (timeout : Option Rat) (headers : Option Dict)
    (expected_last_msg_id expected_stream : Option String)
    (expected_last_sequence expected_last_subject_sequence : Option Int)
    (retry_attempts : Int) (retry_wait : Rat) : List Ev × PublishResult :=
  attemptLoop p.client
    (publishRequest p subject payload timeout headers expected_last_msg_id
      expected_stream expected_last_sequence expected_last_subject_sequence)
    retry_wait retry_attempts.toNat 0

/-! Supporting lemmas about dict operations. -/

theorem dictSet_ne_nil (d : Dict) (k : HKey) (v : String) : dictSet d k v ≠ [] := by
  cases d with
  | nil => simp [dictSet]
  | cons a d =>
    obtain ⟨k', v'⟩ := a
    simp only [dictSet]
    split <;> simp

theorem dictGet_dictSet (d : Dict) (k k' : HKey) (v : String) :
    dictGet (dictSet d k v) k' = if k' = k then some v else dictGet d k' := by
  induction d with
  | nil => simp [dictSet, dictGet]
  | cons a d ih =>
    obtain ⟨ka, va⟩ := a
    simp only [dictSet]
    by_cases hka : k = ka
    · subst hka
      simp only [if_pos rfl, dictGet]
      by_cases h1 : k' = k <;> simp [h1]
    · rw [if_neg hka]
      simp only [dictGet, ih]
      by_cases h1 : k' = ka
      · subst h1
        rw [if_pos rfl, if_neg (fun h => hka h.symm), if_pos rfl]
      · rw [if_neg h1, if_neg h1]

theorem dictGet_eq_none_of_not_mem (d : Dict) (k : HKey) (h : k ∉ keys d) :
    dictGet d k = none := by
  induction d with
  | nil => rfl
  | cons a d ih =>
    obtain ⟨ka, va⟩ := a
    simp only [keys, List.map_cons, List.mem_cons, not_or] at h
    simp only [dictGet, if_neg h.1]
    exact ih h.2

theorem dictGet_dictUpdate (d o : Dict) (ho : (keys o).Nodup) (k : HKey) :
    dictGet (dictUpdate d o) k =
      match dictGet o k with
      | some v => some v
      | none => dictGet d k := by
  induction o generalizing d with
  | nil => simp [dictUpdate, dictGet]
  | cons a o ih =>
    obtain ⟨ka, va⟩ := a
    simp only [keys, List.map_cons, List.nodup_cons] at ho
    have step : dictUpdate d ((ka, va) :: o) = dictUpdate (dictSet d ka va) o := rfl
    rw [step, ih (dictSet d ka va) ho.2]
    by_cases hk : k = ka
    · subst hk
      have hnone : dictGet o k = none :=
        dictGet_eq_none_of_not_mem o k ho.1
      simp [dictGet, hnone, dictGet_dictSet]
    · simp [dictGet, if_neg hk, dictGet_dictSet, hk]

theorem buildExtra_eq_nil_iff (e1 e2 : Option String) (e3 e4 : Option Int) :
    buildExtra e1 e2 e3 e4 = [] ↔ (e1 = none ∧ e2 = none ∧ e3 = none ∧ e4 = none) := by
  rcases e1 with _ | v1 <;> rcases e2 with _ | v2 <;>
    rcases e3 with _ | v3 <;> rcases e4 with _ | v4 <;>
    simp [buildExtra, dictSet_ne_nil]

/-! Supporting lemmas about the retry loop and traces. -/

theorem countRequests_append (a b : List Ev) :
    countRequests (a ++ b) = countRequests a + countRequests b := by
  induction a with
  | nil => simp [countRequests]
  | cons e a ih =>
    cases e <;> simp [countRequests, ih] <;> omega

/-- The trace fragment produced by one failed-and-retried attempt. -/
def retryStep (req : Request) (retry_wait : Rat) : List Ev :=
  [Ev.request req, Ev.sleep retry_wait]

theorem countRequests_retrySteps (req : Request) (rw : Rat) (k : Nat) :
    countRequests (List.replicate k (retryStep req rw)).flatten = k := by
  induction k with
  | zero => simp [countRequests]
  | succ k ih =>
    rw [List.replicate_succ, List.flatten_cons, countRequests_append, ih]
    simp only [retryStep, countRequests]
    omega

/-- If the transport answers no-responders on the `k` calls starting at
`attempt` and at least one further iteration remains, the loop performs `k`
request/sleep rounds and continues from `attempt + k`. -/
theorem attemptLoop_skip (c : Client) (req : Request) (rw : Rat) :
    ∀ (k remaining attempt : Nat), k < remaining →
    (∀ i, i < k → c.request (attempt + i) req = AttemptOutcome.noResponders) →
    attemptLoop c req rw remaining attempt
      = ((List.replicate k (retryStep req rw)).flatten
           ++ (attemptLoop c req rw (remaining - k) (attempt + k)).1,
         (attemptLoop c req rw (remaining - k) (attempt + k)).2) := by
  intro k
  induction k with
  | zero =>
    intro remaining attempt hk hfail
    simp only [Nat.sub_zero, Nat.add_zero, List.replicate_zero, List.flatten_nil,
      List.nil_append]
  | succ k ih =>
    intro remaining attempt hk hfail
    cases remaining with
    | zero => omega
    | succ r =>
      have hr0 : c.request attempt req = AttemptOutcome.noResponders := by
        have := hfail 0 (Nat.succ_pos k)
        simpa using this
      have hrne : r ≠ 0 := by omega
      have hrec := ih r (attempt + 1) (by omega)
        (fun i hi => by
          have := hfail (i + 1) (by omega)
          simpa [Nat.add_assoc, Nat.add_comm 1 i] using this)
      simp only [attemptLoop, hr0, if_neg hrne]
      rw [hrec]
      have h1 : r + 1 - (k + 1) = r - k := by omega
      have h2 : attempt + (k + 1) = attempt + 1 + k := by omega
      simp [h1, h2, List.replicate_succ, retryStep]

/-! Claim theorems. -/

/-- C1: for every `N ≥ 1`, if every transport request fails with
no-responders, `publish` with `retry_attempts = N` issues exactly `N`
transport requests, sleeps `retry_wait` after each of the first `N - 1`
failed attempts and not after the last, and raises the no-stream-response
error. -/
theorem publish_all_noResponders
    (p : Publisher) (subject : String) (payload : List Nat) (id : Option String)
    (timeout : Option Rat) (headers : Option Dict)
    (e1 e2 : Option String) (e3 e4 : Option Int) (rw : Rat) (N : Nat)
    (hN : 1 ≤ N)
    (hfail : ∀ i req, p.client.request i req = AttemptOutcome.noResponders) :
    publish p subject payload id timeout headers e1 e2 e3 e4 (N : Int) rw
      = ((List.replicate (N - 1)
            (retryStep (publishRequest p subject payload timeout headers e1 e2 e3 e4) rw)).flatten
           ++ [Ev.request (publishRequest p subject payload timeout headers e1 e2 e3 e4)],
         PublishResult.err PubErr.noStreamResponse)
    ∧ countRequests
        (publish p subject payload id timeout headers e1 e2 e3 e4 (N : Int) rw).1 = N := by
  have hloop := attemptLoop_skip p.client
    (publishRequest p subject payload timeout headers e1 e2 e3 e4) rw
    (N - 1) N 0 (by omega) (fun i hi => hfail _ _)
  have hone : attemptLoop p.client
      (publishRequest p subject payload timeout headers e1 e2 e3 e4) rw
      (N - (N - 1)) (0 + (N - 1))
      = ([Ev.request (publishRequest p subject payload timeout headers e1 e2 e3 e4)],
         PublishResult.err PubErr.noStreamResponse) := by
    have h2 : N - (N - 1) = 1 := by omega
    rw [h2]
    simp [attemptLoop, hfail]
  have hpub : publish p subject payload id timeout headers e1 e2 e3 e4 (N : Int) rw
      = ((List.replicate (N - 1)
            (retryStep (publishRequest p subject payload timeout headers e1 e2 e3 e4) rw)).flatten
           ++ [Ev.request (publishRequest p subject payload timeout headers e1 e2 e3 e4)],
         PublishResult.err PubErr.noStreamResponse) := by
    simp only [publish, Int.toNat_natCast]
    rw [hloop, hone]
  refine ⟨hpub, ?_⟩
  rw [hpub]
  simp only [countRequests_append, countRequests_retrySteps, countRequests]
  omega

/-- C1 witness: `N = 2` with a transport that always answers
no-responders. -/
theorem publish_all_noResponders_witness :
    publish ⟨⟨fun _ _ => AttemptOutcome.noResponders⟩, 1⟩ "ORDERS.new" [1] none none none
        none none none none ((2 : Nat) : Int) (5 : Rat)
      = ((List.replicate (2 - 1)
            (retryStep (publishRequest ⟨⟨fun _ _ => AttemptOutcome.noResponders⟩, 1⟩
              "ORDERS.new" [1] none none none none none none) (5 : Rat))).flatten
           ++ [Ev.request (publishRequest ⟨⟨fun _ _ => AttemptOutcome.noResponders⟩, 1⟩
              "ORDERS.new" [1] none none none none none none)],
         PublishResult.err PubErr.noStreamResponse)
    ∧ countRequests
        (publish ⟨⟨fun _ _ => AttemptOutcome.noResponders⟩, 1⟩ "ORDERS.new" [1] none none none
          none none none none ((2 : Nat) : Int) (5 : Rat)).1 = 2 :=
  publish_all_noResponders ⟨⟨fun _ _ => AttemptOutcome.noResponders⟩, 1⟩ "ORDERS.new" [1]
    none none none none none none none (5 : Rat) 2 (by decide) (fun _ _ => rfl)

/-- C2: a reply that decodes to a `PubAck` with an absent/null `stream`
raises invalid-ack on that very attempt: exactly `k + 1` requests are issued
when it arrives on attempt `k`, no matter how many retry attempts remain,
and no ack is returned. -/
theorem publish_invalid_ack_not_retried
    (p : Publisher) (subject : String) (payload : List Nat) (id : Option String)
    (timeout : Option Rat) (headers : Option Dict)
    (e1 e2 : Option String) (e3 e4 : Option Int) (rw : Rat) (N k : Nat) (ack : PubAck)
    (hk : k < N)
    (hfail : ∀ i, i < k →
      p.client.request i (publishRequest p subject payload timeout headers e1 e2 e3 e4)
        = AttemptOutcome.noResponders)
    (hreply : p.client.request k (publishRequest p subject payload timeout headers e1 e2 e3 e4)
        = AttemptOutcome.reply ack)
    (hstream : ack.stream = none) :
    (publish p subject payload id timeout headers e1 e2 e3 e4 (N : Int) rw).2
        = PublishResult.err PubErr.invalidAck
    ∧ countRequests
        (publish p subject payload id timeout headers e1 e2 e3 e4 (N : Int) rw).1 = k + 1 := by
  have hloop := attemptLoop_skip p.client
    (publishRequest p subject payload timeout headers e1 e2 e3 e4) rw k N 0 hk
    (fun i hi => by simpa using hfail i hi)
  have hone : attemptLoop p.client
      (publishRequest p subject payload timeout headers e1 e2 e3 e4) rw (N - k) (0 + k)
      = ([Ev.request (publishRequest p subject payload timeout headers e1 e2 e3 e4)],
         PublishResult.err PubErr.invalidAck) := by
    have hm : N - k = (N - k - 1) + 1 := by omega
    rw [hm]
    simp [attemptLoop, hreply, hstream]
  have hpub : publish p subject payload id timeout headers e1 e2 e3 e4 (N : Int) rw
      = ((List.replicate k
            (retryStep (publishRequest p subject payload timeout headers e1 e2 e3 e4) rw)).flatten
           ++ [Ev.request (publishRequest p subject payload timeout headers e1 e2 e3 e4)],
         PublishResult.err PubErr.invalidAck) := by
    simp only [publish, Int.toNat_natCast]
    rw [hloop, hone]
  rw [hpub]
  refine ⟨rfl, ?_⟩
  simp only [countRequests_append, countRequests_retrySteps, countRequests]

/-- C2 witness: a null-stream reply on attempt `k = 1` of `N = 3`. -/
theorem publish_invalid_ack_not_retried_witness :
    (publish ⟨⟨fun i _ => if i = 0 then AttemptOutcome.noResponders
        else AttemptOutcome.reply ⟨none, 7, false, none⟩⟩, 1⟩ "ORDERS.new" [] none none none
        none none none none ((3 : Nat) : Int) (1 : Rat)).2
        = PublishResult.err PubErr.invalidAck
    ∧ countRequests
        (publish ⟨⟨fun i _ => if i = 0 then AttemptOutcome.noResponders
          else AttemptOutcome.reply ⟨none, 7, false, none⟩⟩, 1⟩ "ORDERS.new" [] none none none
          none none none none ((3 : Nat) : Int) (1 : Rat)).1 = 1 + 1 :=
  publish_invalid_ack_not_retried
    ⟨⟨fun i _ => if i = 0 then AttemptOutcome.noResponders
      else AttemptOutcome.reply ⟨none, 7, false, none⟩⟩, 1⟩ "ORDERS.new" [] none none none
    none none none none (1 : Rat) 3 1 ⟨none, 7, false, none⟩ (by decide)
    (by decide) (by decide) rfl

/-- C3: a transport error other than no-responders arriving on attempt `k`
propagates at once: exactly `k + 1` requests are issued even if retry
attempts remain, and the error surfaced is that very transport error. -/
theorem publish_other_error_not_retried
    (p : Publisher) (subject : String) (payload : List Nat) (id : Option String)
    (timeout : Option Rat) (headers : Option Dict)
    (e1 e2 : Option String) (e3 e4 : Option Int) (rw : Rat) (N k : Nat) (e : String)
    (hk : k < N)
    (hfail : ∀ i, i < k →
      p.client.request i (publishRequest p subject payload timeout headers e1 e2 e3 e4)
        = AttemptOutcome.noResponders)
    (herr : p.client.request k (publishRequest p subject payload timeout headers e1 e2 e3 e4)
        = AttemptOutcome.fail e) :
    (publish p subject payload id timeout headers e1 e2 e3 e4 (N : Int) rw).2
        = PublishResult.err (PubErr.transport e)
    ∧ countRequests
        (publish p subject payload id timeout headers e1 e2 e3 e4 (N : Int) rw).1 = k + 1 := by
  have hloop := attemptLoop_skip p.client
    (publishRequest p subject payload timeout headers e1 e2 e3 e4) rw k N 0 hk
    (fun i hi => by simpa using hfail i hi)
  have hone : attemptLoop p.client
      (publishRequest p subject payload timeout headers e1 e2 e3 e4) rw (N - k) (0 + k)
      = ([Ev.request (publishRequest p subject payload timeout headers e1 e2 e3 e4)],
         PublishResult.err (PubErr.transport e)) := by
    have hm : N - k = (N - k - 1) + 1 := by omega
    rw [hm]
    simp [attemptLoop, herr]
  have hpub : publish p subject payload id timeout headers e1 e2 e3 e4 (N : Int) rw
      = ((List.replicate k
            (retryStep (publishRequest p subject payload timeout headers e1 e2 e3 e4) rw)).flatten
           ++ [Ev.request (publishRequest p subject payload timeout headers e1 e2 e3 e4)],
         PublishResult.err (PubErr.transport e)) := by
    simp only [publish, Int.toNat_natCast]
    rw [hloop, hone]
  rw [hpub]
  refine ⟨rfl, ?_⟩
  simp only [countRequests_append, countRequests_retrySteps, countRequests]

/-- C3 witness: a timeout error on the very first attempt of `N = 3`. -/
theorem publish_other_error_not_retried_witness :
    (publish ⟨⟨fun _ _ => AttemptOutcome.fail "TimeoutError"⟩, 1⟩ "ORDERS.new" [] none none none
        none none none none ((3 : Nat) : Int) (1 : Rat)).2
        = PublishResult.err (PubErr.transport "TimeoutError")
    ∧ countRequests
        (publish ⟨⟨fun _ _ => AttemptOutcome.fail "TimeoutError"⟩, 1⟩ "ORDERS.new" [] none none none
          none none none none ((3 : Nat) : Int) (1 : Rat)).1 = 0 + 1 :=
  publish_other_error_not_retried
    ⟨⟨fun _ _ => AttemptOutcome.fail "TimeoutError"⟩, 1⟩ "ORDERS.new" [] none none none
    none none none none (1 : Rat) 3 0 "TimeoutError" (by decide)
    (fun i hi => absurd hi (by omega)) rfl

/-- C4: no-responders on the first `k < N` attempts followed by a reply
decoding to an ack with non-null `stream` gives exactly `k + 1` requests,
returns exactly the decoded ack, and the trace ends at the successful
request (no further attempts). -/
theorem publish_success_after_retries
    (p : Publisher) (subject : String) (payload : List Nat) (id : Option String)
    (timeout : Option Rat) (headers : Option Dict)
    (e1 e2 : Option String) (e3 e4 : Option Int) (rw : Rat) (N k : Nat) (ack : PubAck)
    (hk : k < N)
    (hfail : ∀ i, i < k →
      p.client.request i (publishRequest p subject payload timeout headers e1 e2 e3 e4)
        = AttemptOutcome.noResponders)
    (hreply : p.client.request k (publishRequest p subject payload timeout headers e1 e2 e3 e4)
        = AttemptOutcome.reply ack)
    (hstream : ack.stream ≠ none) :
    publish p subject payload id timeout headers e1 e2 e3 e4 (N : Int) rw
      = ((List.replicate k
            (retryStep (publishRequest p subject payload timeout headers e1 e2 e3 e4) rw)).flatten
           ++ [Ev.request (publishRequest p subject payload timeout headers e1 e2 e3 e4)],
         PublishResult.ok ack)
    ∧ countRequests
        (publish p subject payload id timeout headers e1 e2 e3 e4 (N : Int) rw).1 = k + 1 := by
  have hloop := attemptLoop_skip p.client
    (publishRequest p subject payload timeout headers e1 e2 e3 e4) rw k N 0 hk
    (fun i hi => by simpa using hfail i hi)
  have hone : attemptLoop p.client
      (publishRequest p subject payload timeout headers e1 e2 e3 e4) rw (N - k) (0 + k)
      = ([Ev.request (publishRequest p subject payload timeout headers e1 e2 e3 e4)],
         PublishResult.ok ack) := by
    have hm : N - k = (N - k - 1) + 1 := by omega
    rw [hm]
    simp [attemptLoop, hreply, hstream]
  have hpub : publish p subject payload id timeout headers e1 e2 e3 e4 (N : Int) rw
      = ((List.replicate k
            (retryStep (publishRequest p subject payload timeout headers e1 e2 e3 e4) rw)).flatten
           ++ [Ev.request (publishRequest p subject payload timeout headers e1 e2 e3 e4)],
         PublishResult.ok ack) := by
    simp only [publish, Int.toNat_natCast]
    rw [hloop, hone]
  refine ⟨hpub, ?_⟩
  rw [hpub]
  simp only [countRequests_append, countRequests_retrySteps, countRequests]

/-- C4 witness: one no-responders failure, then a successful ack, with
`N = 3`. -/
theorem publish_success_after_retries_witness :
    publish ⟨⟨fun i _ => if i = 0 then AttemptOutcome.noResponders
        else AttemptOutcome.reply ⟨some "ORDERS", 42, false, some "hub"⟩⟩, 1⟩ "ORDERS.new" []
        none none none none none none none ((3 : Nat) : Int) (1 : Rat)
      = ((List.replicate 1
            (retryStep (publishRequest ⟨⟨fun i _ => if i = 0 then AttemptOutcome.noResponders
              else AttemptOutcome.reply ⟨some "ORDERS", 42, false, some "hub"⟩⟩, 1⟩
              "ORDERS.new" [] none none none none none none) (1 : Rat))).flatten
           ++ [Ev.request (publishRequest ⟨⟨fun i _ => if i = 0 then AttemptOutcome.noResponders
              else AttemptOutcome.reply ⟨some "ORDERS", 42, false, some "hub"⟩⟩, 1⟩
              "ORDERS.new" [] none none none none none none)],
         PublishResult.ok ⟨some "ORDERS", 42, false, some "hub"⟩)
    ∧ countRequests
        (publish ⟨⟨fun i _ => if i = 0 then AttemptOutcome.noResponders
          else AttemptOutcome.reply ⟨some "ORDERS", 42, false, some "hub"⟩⟩, 1⟩ "ORDERS.new" []
          none none none none none none none ((3 : Nat) : Int) (1 : Rat)).1 = 1 + 1 :=
  publish_success_after_retries
    ⟨⟨fun i _ => if i = 0 then AttemptOutcome.noResponders
      else AttemptOutcome.reply ⟨some "ORDERS", 42, false, some "hub"⟩⟩, 1⟩ "ORDERS.new" []
    none none none none none none none (1 : Rat) 3 1 ⟨some "ORDERS", 42, false, some "hub"⟩
    (by decide) (by decide) (by decide) (by decide)

/-- C5: the `id` parameter is accepted but never reaches the transport: the
whole observable behaviour of `publish` (every request issued and the
result) is identical for any two values of `id`.  The source never passes
`id` to `client.request`, contradicting the documented intent that the
message-id be conveyed as a dedicated identifier field. -/
theorem publish_id_dropped
    (p : Publisher) (subject : String) (payload : List Nat)
    (id1 id2 : Option String) (timeout : Option Rat) (headers : Option Dict)
    (e1 e2 : Option String) (e3 e4 : Option Int) (ra : Int) (rw : Rat) :
    publish p subject payload id1 timeout headers e1 e2 e3 e4 ra rw
      = publish p subject payload id2 timeout headers e1 e2 e3 e4 ra rw := rfl

/-- C9: a reply decoding to an ack whose `stream` is present but empty is
treated as valid (`"" == None` is false in the source's check), and
invalid-ack arises exactly when the decoded `stream` is `None`. -/
theorem publish_empty_stream_is_valid
    (p : Publisher) (subject : String) (payload : List Nat) (id : Option String)
    (timeout : Option Rat) (headers : Option Dict)
    (e1 e2 : Option String) (e3 e4 : Option Int) (rw : Rat) (N : Nat) (ack : PubAck)
    (hN : 1 ≤ N)
    (hreply : p.client.request 0 (publishRequest p subject payload timeout headers e1 e2 e3 e4)
        = AttemptOutcome.reply ack) :
    (ack.stream = some "" →
        (publish p subject payload id timeout headers e1 e2 e3 e4 (N : Int) rw).2
          = PublishResult.ok ack)
    ∧ (ack.stream = none ↔
        (publish p subject payload id timeout headers e1 e2 e3 e4 (N : Int) rw).2
          = PublishResult.err PubErr.invalidAck) := by
  obtain ⟨m, rfl⟩ : ∃ m, N = m + 1 := ⟨N - 1, by omega⟩
  have hpub : (publish p subject payload id timeout headers e1 e2 e3 e4 ((m + 1 : Nat) : Int) rw).2
      = (if ack.stream = none then PublishResult.err PubErr.invalidAck
         else PublishResult.ok ack) := by
    simp [publish, attemptLoop, hreply]
  refine ⟨?_, ?_, ?_⟩
  · intro hs
    rw [hpub, hs]
    simp
  · intro hs
    rw [hpub, if_pos hs]
  · intro hres
    by_contra hs
    rw [hpub, if_neg hs] at hres
    exact PublishResult.noConfusion hres

/-- C9 witness: a single-attempt publish whose reply carries
`stream = ""`. -/
theorem publish_empty_stream_is_valid_witness :
    ((⟨some "", 3, true, none⟩ : PubAck).stream = some "" →
        (publish ⟨⟨fun _ _ => AttemptOutcome.reply ⟨some "", 3, true, none⟩⟩, 1⟩ "s" [] none
          none none none none none none ((1 : Nat) : Int) (1 : Rat)).2
          = PublishResult.ok ⟨some "", 3, true, none⟩)
    ∧ ((⟨some "", 3, true, none⟩ : PubAck).stream = none ↔
        (publish ⟨⟨fun _ _ => AttemptOutcome.reply ⟨some "", 3, true, none⟩⟩, 1⟩ "s" [] none
          none none none none none none ((1 : Nat) : Int) (1 : Rat)).2
          = PublishResult.err PubErr.invalidAck) :=
  publish_empty_stream_is_valid
    ⟨⟨fun _ _ => AttemptOutcome.reply ⟨some "", 3, true, none⟩⟩, 1⟩ "s" [] none none none
    none none none none (1 : Rat) 1 ⟨some "", 3, true, none⟩ (by decide) rfl

/-- C6: with at least one expectation parameter present, the outgoing
header set is the expectation headers with the caller-supplied headers
merged on top, so the caller's value wins on every key collision; with no
expectation parameter present, the caller-supplied headers are used
unchanged (including the absent case). -/
theorem publish_header_merge_policy
    (e1 e2 : Option String) (e3 e4 : Option Int) (h : Dict)
    (hnd : (keys h).Nodup) :
    ((e1 = none ∧ e2 = none ∧ e3 = none ∧ e4 = none) →
        buildHeaders (some h) e1 e2 e3 e4 = some h
        ∧ buildHeaders none e1 e2 e3 e4 = none)
    ∧ (¬(e1 = none ∧ e2 = none ∧ e3 = none ∧ e4 = none) →
        buildHeaders (some h) e1 e2 e3 e4
            = some (dictUpdate (buildExtra e1 e2 e3 e4) h)
        ∧ ∀ k, dictGet (dictUpdate (buildExtra e1 e2 e3 e4) h) k
            = match dictGet h k with
              | some v => some v
              | none => dictGet (buildExtra e1 e2 e3 e4) k) := by
  refine ⟨?_, ?_⟩
  · rintro ⟨h1, h2, h3, h4⟩
    have hnil : buildExtra e1 e2 e3 e4 = [] :=
      (buildExtra_eq_nil_iff e1 e2 e3 e4).2 ⟨h1, h2, h3, h4⟩
    constructor <;> simp [buildHeaders, hnil]
  · intro hne
    have hnil : buildExtra e1 e2 e3 e4 ≠ [] :=
      fun hc => hne ((buildExtra_eq_nil_iff e1 e2 e3 e4).1 hc)
    have hlen : 0 < (buildExtra e1 e2 e3 e4).length := List.length_pos.2 hnil
    refine ⟨?_, ?_⟩
    · simp [buildHeaders, hlen]
    · intro k
      exact dictGet_dictUpdate (buildExtra e1 e2 e3 e4) h hnd k

/-- C6 witness: one expectation set, a caller dict that collides on the
reserved key; the merged dict carries the caller's value. -/
theorem publish_header_merge_policy_witness :
    buildHeaders (some [(HKey.expectedLastMsgId, "caller"), (HKey.user "a", "1")])
        (some "m") none none none
      = some (dictUpdate (buildExtra (some "m") none none none)
          [(HKey.expectedLastMsgId, "caller"), (HKey.user "a", "1")])
    ∧ dictGet (dictUpdate (buildExtra (some "m") none none none)
          [(HKey.expectedLastMsgId, "caller"), (HKey.user "a", "1")]) HKey.expectedLastMsgId
      = some "caller" := by
  have h := publish_header_merge_policy (some "m") none none none
    [(HKey.expectedLastMsgId, "caller"), (HKey.user "a", "1")] (by decide)
  have h2 := h.2 (by simp)
  refine ⟨h2.1, ?_⟩
  rw [h2.2 HKey.expectedLastMsgId]
  rfl

/-- C7: each expectation parameter present is stringified and stored under
its reserved header key in `extra_headers`, each absent parameter yields no
such header; with no caller-supplied headers, the outgoing header set has
exactly those entries. -/
theorem publish_expectation_headers
    (e1 e2 : Option String) (e3 e4 : Option Int) :
    dictGet (buildExtra e1 e2 e3 e4) HKey.expectedLastMsgId = e1
    ∧ dictGet (buildExtra e1 e2 e3 e4) HKey.expectedStream = e2
    ∧ dictGet (buildExtra e1 e2 e3 e4) HKey.expectedLastSeq = e3.map toString
    ∧ dictGet (buildExtra e1 e2 e3 e4) HKey.expectedLastSubjectSequence = e4.map toString
    ∧ (∀ k, optGet (buildHeaders none e1 e2 e3 e4) k = dictGet (buildExtra e1 e2 e3 e4) k) := by
  rcases e1 with _ | v1 <;> rcases e2 with _ | v2 <;>
    rcases e3 with _ | v3 <;> rcases e4 with _ | v4 <;>
    refine ⟨?_, ?_, ?_, ?_, ?_⟩ <;>
    simp [buildExtra, buildHeaders, dictGet, dictSet, optGet]

/-- C8 counterexample: with `retry_attempts = 0` and a transport that would
immediately return a valid ack, `publish` issues zero transport requests
(the trace is empty) and raises no-stream-response, refuting the claim that
at least one request is issued. -/
theorem publish_zero_attempts_counterexample :
    publish ⟨⟨fun _ _ => AttemptOutcome.reply ⟨some "ORDERS", 1, false, none⟩⟩, 1⟩
        "ORDERS.new" [] none none none none none none none 0 1
      = ([], PublishResult.err PubErr.noStreamResponse)
    ∧ countRequests
        (publish ⟨⟨fun _ _ => AttemptOutcome.reply ⟨some "ORDERS", 1, false, none⟩⟩, 1⟩
          "ORDERS.new" [] none none none none none none none 0 1).1 = 0 :=
  ⟨rfl, rfl⟩

/-- C8 (amended): with `retry_attempts = 0` the loop body never runs:
`publish` issues no transport request at all and raises no-stream-response
immediately, whatever the transport would have answered. -/
theorem publish_zero_attempts
    (p : Publisher) (subject : String) (payload : List Nat) (id : Option String)
    (timeout : Option Rat) (headers : Option Dict)
    (e1 e2 : Option String) (e3 e4 : Option Int) (rw : Rat) :
    publish p subject payload id timeout headers e1 e2 e3 e4 0 rw
      = ([], PublishResult.err PubErr.noStreamResponse) := rfl

/-! Heap-level rendering of the header construction, for the frame claim.
Python dicts are mutable objects on a heap; `extra_headers` is allocated
fresh by line 71 and every mutation in lines 72-87 targets it.  The heap
maps references to dict contents; `next` is the next fresh reference, so
every allocated reference is `< next`. -/

/-- A heap of dict objects. -/
structure HeapState where
  store : Nat → Dict
  next : Nat

/-- Overwrite the dict object at reference `r`. -/
def hset (σ : HeapState) (r : Nat) (d : Dict) : HeapState :=
  ⟨fun r' => if r' = r then d else σ.store r', σ.next⟩

/-- Allocate a fresh dict object, returning its reference. -/
def halloc (σ : HeapState) (d : Dict) : Nat × HeapState :=
  (σ.next, ⟨fun r' => if r' = σ.next then d else σ.store r', σ.next + 1⟩)

/-- One conditional statement of lines 72-83: if the optional value is
present, mutate the dict at `r` by setting key `k` to it. -/
def hinsOpt (σ : HeapState) (r : Nat) (k : HKey) : Option String → HeapState
  | some v => hset σ r (dictSet (σ.store r) k v)
  | none => σ

/-- Lines 71-89 of `publish.py` on the heap: allocate `extra_headers`,
conditionally insert the four stringified expectation values, and if any
were inserted, mutate `extra_headers` in place with the caller's entries
(`extra_headers.update(headers)`) and rebind the local `headers` to it;
otherwise leave the `headers` binding unchanged.  `headers` is a reference
to the caller's dict, or `none`. -/
def buildHeadersH (σ0 : HeapState) (headers : Option Nat)
    (e1 e2 : Option String) (e3 e4 : Option Int) : HeapState × Option Nat :=
  let ehRef := σ0.next
  let σ1 := (halloc σ0 []).2
  let σ2 := hinsOpt σ1 ehRef HKey.expectedLastMsgId e1
  let σ3 := hinsOpt σ2 ehRef HKey.expectedStream e2
  let σ4 := hinsOpt σ3 ehRef HKey.expectedLastSeq (e3.map toString)
  let σ5 := hinsOpt σ4 ehRef HKey.expectedLastSubjectSequence (e4.map toString)
  if 0 < (σ5.store ehRef).length then
    match headers with
    | some hRef => (hset σ5 ehRef (dictUpdate (σ5.store ehRef) (σ5.store hRef)), some ehRef)
    | none => (σ5, some ehRef)
  else (σ5, headers)

/-- The method-call view of `publish`: the receiver after the call, paired
with the call's observable behaviour.  The body of `Publisher.publish`
contains no assignment to `self._client` or `self._timeout`, so the
post-state of the receiver is its pre-state, whether the call returns an
ack or raises. -/
def publishMethod (p : Publisher) (subject : String) (payload : List Nat)
    (id : Option String) (timeout : Option Rat) (headers : Option Dict)
    (e1 e2 : Option String) (e3 e4 : Option Int)
    (ra : Int) (rw : Rat) : Publisher × (List Ev × PublishResult) :=
  (p, publish p subject payload id timeout headers e1 e2 e3 e4 ra rw)

theorem hset_store_other (σ : HeapState) (r : Nat) (d : Dict) (r' : Nat) (h : r' ≠ r) :
    (hset σ r d).store r' = σ.store r' := by
  simp [hset, h]

theorem hinsOpt_store_other (σ : HeapState) (r : Nat) (k : HKey) (o : Option String)
    (r' : Nat) (h : r' ≠ r) : (hinsOpt σ r k o).store r' = σ.store r' := by
  cases o <;> simp [hinsOpt, hset, h]

/-- Every mutation in the heap rendering of lines 71-89 targets the freshly
allocated `extra_headers` object, so any pre-existing object is left
untouched. -/
theorem buildHeadersH_store_preserved (σ : HeapState) (hdrs : Option Nat)
    (e1 e2 : Option String) (e3 e4 : Option Int) (r : Nat) (h : r ≠ σ.next) :
    (buildHeadersH σ hdrs e1 e2 e3 e4).1.store r = σ.store r := by
  cases hdrs with
  | none =>
    simp only [buildHeadersH]
    split <;>
      simp [hinsOpt_store_other, hset_store_other, halloc, h]
  | some hr =>
    simp only [buildHeadersH]
    split <;>
      simp [hinsOpt_store_other, hset_store_other, halloc, h]

/-- C10: the caller-supplied headers dict is never mutated by the header
construction (every write lands on the freshly allocated `extra_headers`
object), and the publisher's own fields are unchanged by the call, whether
it returns an ack or raises. -/
theorem publish_frame
    (σ : HeapState) (hRef : Nat) (e1 e2 : Option String) (e3 e4 : Option Int)
    (p : Publisher) (subject : String) (payload : List Nat) (id : Option String)
    (timeout : Option Rat) (headers : Option Dict)
    (f1 f2 : Option String) (f3 f4 : Option Int) (ra : Int) (rw : Rat)
    (hvalid : hRef < σ.next) :
    (buildHeadersH σ (some hRef) e1 e2 e3 e4).1.store hRef = σ.store hRef
    ∧ (publishMethod p subject payload id timeout headers f1 f2 f3 f4 ra rw).1 = p :=
  ⟨buildHeadersH_store_preserved σ (some hRef) e1 e2 e3 e4 hRef (by omega), rfl⟩

/-- C10 witness: a heap holding one caller dict at reference 0; after the
header construction the dict at 0 is unchanged, and a concrete publish
leaves its publisher as it was. -/
theorem publish_frame_witness :
    (buildHeadersH ⟨fun _ => [(HKey.user "a", "1")], 1⟩ (some 0)
        (some "m") none none none).1.store 0
      = (⟨fun _ => [(HKey.user "a", "1")], 1⟩ : HeapState).store 0
    ∧ (publishMethod ⟨⟨fun _ _ => AttemptOutcome.noResponders⟩, 1⟩ "s" [] none none none
        none none none none 2 1).1
      = ⟨⟨fun _ _ => AttemptOutcome.noResponders⟩, 1⟩ :=
  publish_frame ⟨fun _ => [(HKey.user "a", "1")], 1⟩ 0 (some "m") none none none
    ⟨⟨fun _ _ => AttemptOutcome.noResponders⟩, 1⟩ "s" [] none none none
    none none none none 2 1 (by decide)

end NatsJS
